import Mathlib

/-!
Verification of the client-side Table View Engine of the P6-Forms repository:
the predicate pipeline (search, column filters, date-bucket filters, lookup
filters), the comparator engine, the paginator, the inline-edit controller and
the grid UI state transitions, as implemented by the four form components
(`EngineeringForm`, `QaqcHseForm`, `ActualResourcesForm`,
`DynamicActualDataForm`) and the shared `ColumnFilter` / `DateColumnFilter` /
`Pagination` components.

Modelling conventions: JavaScript `string | null` columns become
`Option String` (`none` = SQL null / JS `null`-`undefined`), `number | null`
columns become `Option Int` (`Option JSNum` where the inline-edit controller
may store a `parseInt` result, which can be `NaN`).  JS `toLowerCase`,
`includes`, `parseInt` and `new Date(...)` year/month extraction are modelled
by executable Lean functions documented at their definitions.
-/

/-- Runtime value of a JS number variable that was produced by `parseInt`:
either an integer or `NaN`. -/
inductive JSNum where
  | int (n : Int)
  | nan
deriving DecidableEq

/-- Model of JS `String(x)` / `x.toString()` on a number produced by
`parseInt`: decimal representation, `NaN` prints as `"NaN"`. -/
def jsNumToString : JSNum → String
  | .int n => toString n
  | .nan => "NaN"

/-- Model of JS `parseInt` on a text-input string: an optional sign followed
by leading decimal digits; no digits parse to `NaN`.  (Leading whitespace and
radix prefixes are out of scope: the values come from the grid's text inputs.) -/
def jsParseInt (s : String) : JSNum :=
  let digitsVal : List Char → Nat :=
    fun ds => ds.foldl (fun a c => a * 10 + (c.toNat - '0'.toNat)) 0
  match s.data with
  | [] => .nan
  | c :: cs =>
    if c = '-' then
      let ds := cs.takeWhile Char.isDigit
      if ds.isEmpty then .nan else .int (-(digitsVal ds : Int))
    else if c = '+' then
      let ds := cs.takeWhile Char.isDigit
      if ds.isEmpty then .nan else .int (digitsVal ds)
    else
      let ds := (c :: cs).takeWhile Char.isDigit
      if ds.isEmpty then .nan else .int (digitsVal ds)

/-- Model of JS `String.prototype.toLowerCase` (ASCII case folding, which is
all the grid's data uses). -/
def jsToLower (s : String) : String := String.mk (s.data.map Char.toLower)

/-- Model of JS `hay.includes(needle)`: `needle` occurs as a contiguous
substring of `hay`. -/
def strIncludes (hay needle : String) : Bool :=
  (List.range (hay.data.length + 1)).any fun i => needle.data.isPrefixOf (hay.data.drop i)

/-- Model of `field?.toLowerCase().includes(term)` on a nullable string
column: a `null`/`undefined` column is falsy, hence never matches. -/
def optLowerIncludes (field : Option String) (term : String) : Bool :=
  match field with
  | some s => strIncludes (jsToLower s) term
  | none => false

/-- Model of `field?.toString().includes(term)` on a nullable numeric
column. -/
def optNumIncludes (field : Option Int) (term : String) : Bool :=
  match field with
  | some n => strIncludes (toString n) term
  | none => false

/-- Model of JS falsiness of a nullable string column (`!item.field`): truthy
exactly when the column is `null`/`undefined` or the empty string. -/
def jsFalsyStr : Option String → Bool
  | none => true
  | some s => s == ""

/-- Model of `new Date(s)` followed by `getFullYear` / `getMonth` on an
ISO-like `YYYY-MM[-...]` timestamp string: the year and the 1-based month.
Unparsable strings give `none` (JS `Invalid Date`, whose year and month are
`NaN`).  Time-zone shifts of the local-time getters are out of scope; the
derived key is used consistently on both sides of every comparison in the
source, so every claim below only depends on the derivation being a fixed
function of the stored string. -/
def splitOnChar (c : Char) : List Char → List (List Char)
  | [] => [[]]
  | x :: xs =>
    let r := splitOnChar c xs
    if x = c then [] :: r
    else
      match r with
      | [] => [[x]]
      | g :: gs => (x :: g) :: gs

/-- Decimal value of a non-empty all-digit token, as `String.toNat?` computes
it (kernel-computable variant working on the character list). -/
def charsToNat? (cs : List Char) : Option Nat :=
  if cs ≠ [] ∧ cs.all Char.isDigit then
    some (cs.foldl (fun a c => a * 10 + (c.toNat - '0'.toNat)) 0)
  else none

def parseYearMonth (s : String) : Option (Nat × Nat) :=
  match splitOnChar '-' s.data with
  | y :: m :: _ =>
    match charsToNat? y, charsToNat? m with
    | some yn, some mn => if 1 ≤ mn ∧ mn ≤ 12 then some (yn, mn) else none
    | _, _ => none
  | _ => none

/-- The `YEAR-zero_padded_MONTH` bucket key built by the source as
`date.getFullYear() + "-" + String(date.getMonth() + 1).padStart(2, "0")`. -/
def pad2 (n : Nat) : String := if n < 10 then "0" ++ toString n else toString n

/-- Bucket key `YEAR-MM` for a parsed year and 1-based month. -/
def mkBucketKey (y m : Nat) : String := toString y ++ ("-" ++ pad2 m)

/-- The month-year string the source computes for a stored timestamp string:
the bucket key on a parsable string, and `"NaN-NaN"` on an unparsable one
(string interpolation of the `NaN` year and month of an `Invalid Date`). -/
def jsMonthYearKey (s : String) : String :=
  match parseYearMonth s with
  | some (y, m) => mkBucketKey y m
  | none => "NaN-NaN"

/-- One record of the `dbp6_bd041engineering` table (interface `Engineering`
in `types/database.ts`). -/
structure Engineering where
  dgt_dbp6bd041engineeringid : String
  dgt_actualreturndate : Option String
  dgt_actualsubmissiondate : Option String
  dgt_discipline : Option Int
  dgt_dtfid : Option String
  importsequencenumber : Option String
  dgt_plannedapprovaldate : Option String
  dgt_plannedsubmissiondate : Option String
  dgt_revision : Option JSNum
  dgt_status : Option String
  dgt_transmittalref : Option String
  dgt_transmittalsubject : Option String
  dgt_transmittaltype : Option Int
  utcconversiontimezonecode : Option String
  versionnumber : Option Int
  owningbusinessunit : Option String
  created_at : Option String
  is_long_lead : Option Bool
deriving DecidableEq, Inhabited

/-- The `filters` state object of `EngineeringForm`: one string per filterable
column, the empty string meaning "no filter". -/
structure EngFilters where
  dgt_dtfid : String
  dgt_transmittalref : String
  dgt_discipline : String
  dgt_transmittaltype : String
  dgt_actualsubmissiondate : String
  dgt_actualreturndate : String
  dgt_revision : String
  dgt_status : String
deriving DecidableEq, Inhabited

/-- The text-search predicate of `EngineeringForm.filteredAndSortedData`:
`term` is the already-lowercased search term. -/
def engSearchPred (term : String) (item : Engineering) : Bool :=
  optLowerIncludes item.dgt_dtfid term ||
  optLowerIncludes item.dgt_transmittalref term ||
  optLowerIncludes item.dgt_transmittalsubject term ||
  optNumIncludes item.dgt_discipline term

/-- The text-search stage of `EngineeringForm.filteredAndSortedData`. -/
def engSearchStage (searchTerm : String) (l : List Engineering) : List Engineering :=
  if searchTerm != "" then l.filter (engSearchPred (jsToLower searchTerm)) else l

/-- Month-bucket predicate of the date column filters: blank column fails,
otherwise the derived month-year key must equal the filter value. -/
def dateBucketPred (fv : String) (field : Option String) : Bool :=
  match field with
  | none => false
  | some s => if s == "" then false else jsMonthYearKey s == fv

/-- The column-filter stages of `EngineeringForm.filteredAndSortedData`,
in source order.  Plain columns are exact equality against the stringified
value; `dgt_discipline` and `dgt_transmittaltype` special-case the `"BLANK"`
sentinel; the two date columns special-case `"BLANK"` and otherwise filter by
month-year bucket. -/
def engApplyColumnFilters (fs : EngFilters) (l : List Engineering) : List Engineering :=
  let r1 := if fs.dgt_dtfid != "" then
      l.filter (fun item => item.dgt_dtfid == some fs.dgt_dtfid)
    else l
  let r2 := if fs.dgt_transmittalref != "" then
      r1.filter (fun item => item.dgt_transmittalref == some fs.dgt_transmittalref)
    else r1
  let r3 := if fs.dgt_discipline != "" then
      (if fs.dgt_discipline == "BLANK" then
        r2.filter (fun item => item.dgt_discipline == none)
      else
        r2.filter (fun item => item.dgt_discipline.map toString == some fs.dgt_discipline))
    else r2
  let r4 := if fs.dgt_transmittaltype != "" then
      (if fs.dgt_transmittaltype == "BLANK" then
        r3.filter (fun item => item.dgt_transmittaltype == none)
      else
        r3.filter (fun item => item.dgt_transmittaltype.map toString == some fs.dgt_transmittaltype))
    else r3
  let r5 := if fs.dgt_actualsubmissiondate != "" then
      (if fs.dgt_actualsubmissiondate == "BLANK" then
        r4.filter (fun item => jsFalsyStr item.dgt_actualsubmissiondate)
      else
        r4.filter (fun item => dateBucketPred fs.dgt_actualsubmissiondate item.dgt_actualsubmissiondate))
    else r4
  let r6 := if fs.dgt_actualreturndate != "" then
      (if fs.dgt_actualreturndate == "BLANK" then
        r5.filter (fun item => jsFalsyStr item.dgt_actualreturndate)
      else
        r5.filter (fun item => dateBucketPred fs.dgt_actualreturndate item.dgt_actualreturndate))
    else r5
  let r7 := if fs.dgt_revision != "" then
      r6.filter (fun item => item.dgt_revision.map jsNumToString == some fs.dgt_revision)
    else r6
  let r8 := if fs.dgt_status != "" then
      r7.filter (fun item => item.dgt_status == some fs.dgt_status)
    else r7
  r8

/-- The Predicate Pipeline of `EngineeringForm`: the search stage followed by
the column-filter stages (the filter part of `filteredAndSortedData`, before
the optional sort). -/
def engFilterPipeline (searchTerm : String) (fs : EngFilters) (l : List Engineering) :
    List Engineering :=
  engApplyColumnFilters fs (engSearchStage searchTerm l)

/-- Sequential application of a list of filter predicates, first predicate
first; canonical form shared by all four grids' filter pipelines. -/
def runPreds (ps : List (ρ → Bool)) (l : List ρ) : List ρ :=
  ps.foldl (fun acc p => acc.filter p) l

/-- The predicate list realizing the Engineering filter pipeline. -/
def engPipelinePreds (searchTerm : String) (fs : EngFilters) : List (Engineering → Bool) :=
  [fun item => !(searchTerm != "") || engSearchPred (jsToLower searchTerm) item,
   fun item => !(fs.dgt_dtfid != "") || item.dgt_dtfid == some fs.dgt_dtfid,
   fun item => !(fs.dgt_transmittalref != "") || item.dgt_transmittalref == some fs.dgt_transmittalref,
   fun item => !(fs.dgt_discipline != "") ||
     (if fs.dgt_discipline == "BLANK" then item.dgt_discipline == none
      else item.dgt_discipline.map toString == some fs.dgt_discipline),
   fun item => !(fs.dgt_transmittaltype != "") ||
     (if fs.dgt_transmittaltype == "BLANK" then item.dgt_transmittaltype == none
      else item.dgt_transmittaltype.map toString == some fs.dgt_transmittaltype),
   fun item => !(fs.dgt_actualsubmissiondate != "") ||
     (if fs.dgt_actualsubmissiondate == "BLANK" then jsFalsyStr item.dgt_actualsubmissiondate
      else dateBucketPred fs.dgt_actualsubmissiondate item.dgt_actualsubmissiondate),
   fun item => !(fs.dgt_actualreturndate != "") ||
     (if fs.dgt_actualreturndate == "BLANK" then jsFalsyStr item.dgt_actualreturndate
      else dateBucketPred fs.dgt_actualreturndate item.dgt_actualreturndate),
   fun item => !(fs.dgt_revision != "") || item.dgt_revision.map jsNumToString == some fs.dgt_revision,
   fun item => !(fs.dgt_status != "") || item.dgt_status == some fs.dgt_status]

/-- One row of the `v_dynamic_actuals_with_filters` view (interface
`DynamicActualDataWithFilters` in `DynamicActualDataForm`). -/
structure DynRow where
  dgt_dbp6bd06dynamicactualdataid : String
  dgt_activityid : Option String
  dgt_actualstart : Option String
  dgt_actualfinish : Option String
  dgt_pctcomplete : Option Int
  mod_id : Option Int
  version_num : Option Int
  dgt_projectid : Option String
  zone_code : Option String
  level_code : Option String
  trade_code : Option String
  dgt_activityname : Option String
  dgt_plannedearlystart : Option String
  dgt_plannedearlyfinish : Option String
deriving DecidableEq, Inhabited

/-- The `filters` state object of `DynamicActualDataForm`. -/
structure DynFilters where
  dgt_activityid : String
  dgt_activityname : String
  dgt_projectid : String
  dgt_plannedearlystart : String
  dgt_plannedearlyfinish : String
  dgt_actualstart : String
  dgt_actualfinish : String
  dgt_pctcomplete : String
deriving DecidableEq, Inhabited

/-- The `lookupFilters` state object of `DynamicActualDataForm`: equality
filters against the denormalized zone/level/trade classification columns. -/
structure LookupFilters where
  zone_code : String
  level_code : String
  trade_code : String
deriving DecidableEq, Inhabited

/-- The text-search predicate of `DynamicActualDataForm.filteredAndSortedData`. -/
def dynSearchPred (term : String) (item : DynRow) : Bool :=
  optLowerIncludes item.dgt_activityid term ||
  optLowerIncludes item.dgt_projectid term

/-- Month-bucket predicate of the `DynamicActualDataForm` date filters
(no `"BLANK"` branch in this form). -/
def dynDatePred (fv : String) (field : Option String) : Bool :=
  match field with
  | none => false
  | some s => if s == "" then false else jsMonthYearKey s == fv

/-- The Predicate Pipeline of `DynamicActualDataForm.filteredAndSortedData`:
search, then lookup filters (zone/level/trade), then column filters including
the four month-bucket date filters, in source order. -/
def dynFilterPipeline (searchTerm : String) (lf : LookupFilters) (fs : DynFilters)
    (l : List DynRow) : List DynRow :=
  let r0 := if searchTerm != "" then l.filter (dynSearchPred (jsToLower searchTerm)) else l
  let r1 := if lf.zone_code != "" then
      r0.filter (fun item => item.zone_code == some lf.zone_code)
    else r0
  let r2 := if lf.level_code != "" then
      r1.filter (fun item => item.level_code == some lf.level_code)
    else r1
  let r3 := if lf.trade_code != "" then
      r2.filter (fun item => item.trade_code == some lf.trade_code)
    else r2
  let r4 := if fs.dgt_activityid != "" then
      r3.filter (fun item => item.dgt_activityid == some fs.dgt_activityid)
    else r3
  let r5 := if fs.dgt_activityname != "" then
      r4.filter (fun item => item.dgt_activityname == some fs.dgt_activityname)
    else r4
  let r6 := if fs.dgt_projectid != "" then
      r5.filter (fun item => item.dgt_projectid == some fs.dgt_projectid)
    else r5
  let r7 := if fs.dgt_plannedearlystart != "" then
      r6.filter (fun item => dynDatePred fs.dgt_plannedearlystart item.dgt_plannedearlystart)
    else r6
  let r8 := if fs.dgt_plannedearlyfinish != "" then
      r7.filter (fun item => dynDatePred fs.dgt_plannedearlyfinish item.dgt_plannedearlyfinish)
    else r7
  let r9 := if fs.dgt_actualstart != "" then
      r8.filter (fun item => dynDatePred fs.dgt_actualstart item.dgt_actualstart)
    else r8
  let r10 := if fs.dgt_actualfinish != "" then
      r9.filter (fun item => dynDatePred fs.dgt_actualfinish item.dgt_actualfinish)
    else r9
  r10

/-- The predicate list realizing the DynamicActualData filter pipeline. -/
def dynPipelinePreds (searchTerm : String) (lf : LookupFilters) (fs : DynFilters) :
    List (DynRow → Bool) :=
  [fun item => !(searchTerm != "") || dynSearchPred (jsToLower searchTerm) item,
   fun item => !(lf.zone_code != "") || item.zone_code == some lf.zone_code,
   fun item => !(lf.level_code != "") || item.level_code == some lf.level_code,
   fun item => !(lf.trade_code != "") || item.trade_code == some lf.trade_code,
   fun item => !(fs.dgt_activityid != "") || item.dgt_activityid == some fs.dgt_activityid,
   fun item => !(fs.dgt_activityname != "") || item.dgt_activityname == some fs.dgt_activityname,
   fun item => !(fs.dgt_projectid != "") || item.dgt_projectid == some fs.dgt_projectid,
   fun item => !(fs.dgt_plannedearlystart != "") || dynDatePred fs.dgt_plannedearlystart item.dgt_plannedearlystart,
   fun item => !(fs.dgt_plannedearlyfinish != "") || dynDatePred fs.dgt_plannedearlyfinish item.dgt_plannedearlyfinish,
   fun item => !(fs.dgt_actualstart != "") || dynDatePred fs.dgt_actualstart item.dgt_actualstart,
   fun item => !(fs.dgt_actualfinish != "") || dynDatePred fs.dgt_actualfinish item.dgt_actualfinish]

/-- Sort direction of the grids (`type SortDirection = "asc" | "desc"`). -/
inductive SortDirection where
  | asc
  | desc
deriving DecidableEq, Inhabited

/-- The shared sort comparator of `filteredAndSortedData` (identical in all
four forms), over the values of one sort column modelled as `Option α` for a
linearly ordered `α` (`none` = `null`/`undefined`).  The source's
`localeCompare` branch for two strings and its generic `<`/`>` branch return
the same sign for any linear order, so both are modelled by the single
`some`/`some` case. -/
def cmpJS [LinearOrder α] (dir : SortDirection) (a b : Option α) : Int :=
  match a, b with
  | none, _ => if dir = .asc then 1 else -1
  | some _, none => if dir = .asc then -1 else 1
  | some x, some y =>
    if x < y then (if dir = .asc then -1 else 1)
    else if y < x then (if dir = .asc then 1 else -1)
    else 0

/-- The sort of `filteredAndSortedData` over a sort-key projection `k`:
ECMAScript `Array.prototype.sort` is required to be stable, modelled here by
the stable `List.insertionSort` with the comparator deciding "`a` stays before
`b`" as `compare(a, b) <= 0`. -/
def sortJS [LinearOrder α] (dir : SortDirection) (k : ρ → Option α) (l : List ρ) : List ρ :=
  List.insertionSort (fun a b => cmpJS dir (k a) (k b) ≤ 0) l

/-- Key order "nulls last": `none` is strictly above every concrete value and
ties with itself. -/
def nullsLastLE [LinearOrder α] (a b : Option α) : Prop :=
  match a, b with
  | _, none => True
  | none, some _ => False
  | some x, some y => x ≤ y

/-- The fixed page size of every grid (`const ITEMS_PER_PAGE = 15`). -/
def ITEMS_PER_PAGE : Nat := 15

/-- Model of `Array.prototype.slice(a, b)`. -/
def jsSlice (l : List ρ) (a b : Nat) : List ρ := (l.drop a).take (b - a)

/-- The `totalPages` computation:
`Math.ceil(filteredAndSortedData.length / ITEMS_PER_PAGE)`. -/
def totalPages (count : Nat) : Nat := (count + ITEMS_PER_PAGE - 1) / ITEMS_PER_PAGE

/-- The `paginatedData` computation:
`filteredAndSortedData.slice((currentPage - 1) * ITEMS_PER_PAGE, currentPage * ITEMS_PER_PAGE)`. -/
def paginatedData (l : List ρ) (currentPage : Nat) : List ρ :=
  jsSlice l ((currentPage - 1) * ITEMS_PER_PAGE) (currentPage * ITEMS_PER_PAGE)

/-- All pages of a sequence, for `currentPage = 1 .. totalPages` in order. -/
def gridPages (l : List ρ) : List (List ρ) :=
  (List.range (totalPages l.length)).map (fun i => paginatedData l (i + 1))

/-- The editable-field union of `EngineeringForm`
(`type EditableField = "dgt_actualsubmissiondate" | "dgt_actualreturndate" |
"dgt_revision" | "dgt_status"`). -/
inductive EngEditableField where
  | dgt_actualsubmissiondate
  | dgt_actualreturndate
  | dgt_revision
  | dgt_status
deriving DecidableEq, Inhabited

/-- Runtime value of the `updateValue` local of `EngineeringForm.saveInlineEdit`
(a string, a number or `null`). -/
inductive UpdateVal where
  | nullV
  | strV (s : String)
  | numV (n : JSNum)
deriving DecidableEq

/-- The `updateValue` computation of `EngineeringForm.saveInlineEdit`:
`let updateValue = cellValue || null` then
`if (field === "dgt_revision" && cellValue) updateValue = parseInt(cellValue)`. -/
def engUpdateValue (field : EngEditableField) (cellValue : String) : UpdateVal :=
  let updateValue : UpdateVal := if cellValue == "" then .nullV else .strV cellValue
  if field = .dgt_revision ∧ cellValue ≠ "" then .numV (jsParseInt cellValue) else updateValue

/-- Stored value for a string-typed editable column (`cellValue || null`). -/
def engSaveValueStr (cellValue : String) : Option String :=
  if cellValue == "" then none else some cellValue

/-- Stored value for the integer-coerced revision column
(`cellValue ? parseInt(cellValue) : null`, per the two branches of
`engUpdateValue` at `field = dgt_revision`). -/
def engSaveValueRev (cellValue : String) : Option JSNum :=
  if cellValue == "" then none else some (jsParseInt cellValue)

/-- The Snapshot Cache patch `{ ...item, [field]: updateValue }` of
`EngineeringForm.saveInlineEdit`, typed per field. -/
def engApplyEdit (item : Engineering) (field : EngEditableField) (cellValue : String) :
    Engineering :=
  match field with
  | .dgt_actualsubmissiondate => { item with dgt_actualsubmissiondate := engSaveValueStr cellValue }
  | .dgt_actualreturndate => { item with dgt_actualreturndate := engSaveValueStr cellValue }
  | .dgt_revision => { item with dgt_revision := engSaveValueRev cellValue }
  | .dgt_status => { item with dgt_status := engSaveValueStr cellValue }

/-- Notification type of `useNotification` (`"success" | "error"`). -/
inductive NotifType where
  | success
  | error
deriving DecidableEq

/-- The notification state set by `showSuccess` / `showError`. -/
structure Notif where
  ntype : NotifType
  message : String
deriving DecidableEq

/-- The slice of `EngineeringForm` component state touched by
`saveInlineEdit`: the Snapshot Cache (`data`), the editing cursor
(`editingCell`, `cellValue`) and the notification. -/
structure EngGrid where
  data : List Engineering
  editingCell : Option (String × EngEditableField)
  cellValue : String
  notification : Option Notif
deriving DecidableEq

/-- The `saveInlineEdit` handler of `EngineeringForm`.  `storeError` is the
`error` field of the awaited store update response (`some msg` on failure). -/
def saveInlineEdit (st : EngGrid) (recordId : String) (field : EngEditableField)
    (storeError : Option String) : EngGrid :=
  match storeError with
  | some msg =>
    { st with
      notification := some ⟨.error, "Failed to update: " ++ msg⟩
      editingCell := none
      cellValue := "" }
  | none =>
    { st with
      data := st.data.map (fun item =>
        if item.dgt_dbp6bd041engineeringid == recordId then
          engApplyEdit item field st.cellValue
        else item)
      notification := some ⟨.success, "Updated successfully"⟩
      editingCell := none
      cellValue := "" }

/-- Frame relation: `a` and `b` agree on the identifier and on every column
other than the edited `field`. -/
def engAgreesOffField (a b : Engineering) (field : EngEditableField) : Prop :=
  a.dgt_dbp6bd041engineeringid = b.dgt_dbp6bd041engineeringid ∧
  (field ≠ .dgt_actualreturndate → a.dgt_actualreturndate = b.dgt_actualreturndate) ∧
  (field ≠ .dgt_actualsubmissiondate → a.dgt_actualsubmissiondate = b.dgt_actualsubmissiondate) ∧
  a.dgt_discipline = b.dgt_discipline ∧
  a.dgt_dtfid = b.dgt_dtfid ∧
  a.importsequencenumber = b.importsequencenumber ∧
  a.dgt_plannedapprovaldate = b.dgt_plannedapprovaldate ∧
  a.dgt_plannedsubmissiondate = b.dgt_plannedsubmissiondate ∧
  (field ≠ .dgt_revision → a.dgt_revision = b.dgt_revision) ∧
  (field ≠ .dgt_status → a.dgt_status = b.dgt_status) ∧
  a.dgt_transmittalref = b.dgt_transmittalref ∧
  a.dgt_transmittalsubject = b.dgt_transmittalsubject ∧
  a.dgt_transmittaltype = b.dgt_transmittaltype ∧
  a.utcconversiontimezonecode = b.utcconversiontimezonecode ∧
  a.versionnumber = b.versionnumber ∧
  a.owningbusinessunit = b.owningbusinessunit ∧
  a.created_at = b.created_at ∧
  a.is_long_lead = b.is_long_lead

/-- Stored value for the integer-coerced resource-count column of
`ActualResourcesForm.saveInlineEdit`
(`cellValue ? parseInt(cellValue) : null`). -/
def arSaveValue (cellValue : String) : Option JSNum :=
  if cellValue == "" then none else some (jsParseInt cellValue)

/-- The sortable-column union of `EngineeringForm`. -/
inductive EngSortField where
  | dgt_dtfid
  | dgt_transmittalref
  | dgt_transmittalsubject
  | dgt_discipline
  | dgt_transmittaltype
  | dgt_actualsubmissiondate
  | dgt_actualreturndate
  | dgt_revision
  | dgt_status
deriving DecidableEq, Inhabited

/-- The filterable-column union of `EngineeringForm` (the keys of its
`filters` object). -/
inductive EngFilterField where
  | dgt_dtfid
  | dgt_transmittalref
  | dgt_discipline
  | dgt_transmittaltype
  | dgt_actualsubmissiondate
  | dgt_actualreturndate
  | dgt_revision
  | dgt_status
deriving DecidableEq, Inhabited

/-- Functional update of one entry of the `filters` object
(`setFilters(prev => ({ ...prev, [field]: value }))`). -/
def setEngFilter (fs : EngFilters) (field : EngFilterField) (value : String) : EngFilters :=
  match field with
  | .dgt_dtfid => { fs with dgt_dtfid := value }
  | .dgt_transmittalref => { fs with dgt_transmittalref := value }
  | .dgt_discipline => { fs with dgt_discipline := value }
  | .dgt_transmittaltype => { fs with dgt_transmittaltype := value }
  | .dgt_actualsubmissiondate => { fs with dgt_actualsubmissiondate := value }
  | .dgt_actualreturndate => { fs with dgt_actualreturndate := value }
  | .dgt_revision => { fs with dgt_revision := value }
  | .dgt_status => { fs with dgt_status := value }

/-- The grid UI state of `EngineeringForm`: search term, filter entries, sort
state and current page. -/
structure EngUIState where
  searchTerm : String
  filters : EngFilters
  sortField : Option EngSortField
  sortDirection : SortDirection
  currentPage : Nat
deriving DecidableEq

/-- The `updateFilter` handler: set one filter entry and reset the page
(`setFilters(...); setCurrentPage(1)`). -/
def updateFilter (st : EngUIState) (field : EngFilterField) (value : String) : EngUIState :=
  { st with filters := setEngFilter st.filters field value, currentPage := 1 }

/-- A search-term transition: `setSearchTerm` followed by the
`useEffect(() => setCurrentPage(1), [searchTerm])` that fires when the term
actually changes; setting the identical term leaves the state unchanged. -/
def setSearchTermUI (st : EngUIState) (value : String) : EngUIState :=
  if value == st.searchTerm then st
  else { st with searchTerm := value, currentPage := 1 }

/-- The `handleSort` handler: toggling the current sort column flips the
direction, a new column resets to ascending; the page is not touched. -/
def handleSort (st : EngUIState) (field : EngSortField) : EngUIState :=
  if st.sortField == some field then
    { st with sortDirection := if st.sortDirection = .asc then .desc else .asc }
  else
    { st with sortField := some field, sortDirection := .asc }

/-- The month-year dropdown options of the shared `DateColumnFilter`
component over one timestamp column: blank values are skipped, parsable
values contribute their bucket key, unparsable values contribute nothing
(the `isNaN(date.getTime())` guard), and keys are deduplicated (the `Set`).
The descending display order of the dropdown is presentational and omitted. -/
def dateFilterOptionKeys (data : List (Option String)) : List String :=
  ((data.filterMap id).filterMap (fun s =>
    if s == "" then none
    else (parseYearMonth s).map (fun ym => mkBucketKey ym.1 ym.2))).dedup

/-- The `hasBlanks` flag of `DateColumnFilter`: some value of the column is
`null`/`undefined`/empty. -/
def dateFilterHasBlanks (data : List (Option String)) : Bool :=
  data.any (fun d => jsFalsyStr d)

/-- Concrete record used as a search-stage witness. -/
def engRec1 : Engineering :=
  { (default : Engineering) with dgt_dbp6bd041engineeringid := "r1", dgt_dtfid := some "AB-100" }

/-- The all-empty initial `filters` object of `EngineeringForm`. -/
def emptyEngFilters : EngFilters :=
  { dgt_dtfid := "", dgt_transmittalref := "", dgt_discipline := "", dgt_transmittaltype := "",
    dgt_actualsubmissiondate := "", dgt_actualreturndate := "", dgt_revision := "",
    dgt_status := "" }

/-- A record whose `dgt_dtfid` is the literal string `"BLANK"`. -/
def engRecBlankStr : Engineering :=
  { (default : Engineering) with dgt_dbp6bd041engineeringid := "r1", dgt_dtfid := some "BLANK" }

/-- A record whose `dgt_dtfid` is null. -/
def engRecNoDtfid : Engineering :=
  { (default : Engineering) with dgt_dbp6bd041engineeringid := "r2" }

/-- Filter state with only the `dgt_dtfid` entry set, to the sentinel. -/
def fsBlankDtfid : EngFilters :=
  { emptyEngFilters with dgt_dtfid := "BLANK" }

/-- Filter state with only the `dgt_discipline` entry set, to the sentinel. -/
def fsBlankDiscipline : EngFilters :=
  { emptyEngFilters with dgt_discipline := "BLANK" }

/-- Filter state with only `dgt_actualsubmissiondate` set, to the sentinel. -/
def fsBlankSubmission : EngFilters :=
  { emptyEngFilters with dgt_actualsubmissiondate := "BLANK" }

/-- A minimal record for sort witnesses: a payload identifier and a sort key. -/
structure KRow where
  rid : Nat
  key : Option Int
deriving DecidableEq

/-- Two distinct records with equal concrete sort keys. -/
def kr1 : KRow := ⟨1, some 5⟩

/-- Second record with the same sort key as `kr1`. -/
def kr2 : KRow := ⟨2, some 5⟩

/-- A record with a null sort key. -/
def krN1 : KRow := ⟨1, none⟩

/-- Second record with a null sort key. -/
def krN2 : KRow := ⟨2, none⟩

/-- Grid state used as an inline-edit witness. -/
def egGrid0 : EngGrid :=
  { data := [engRecNoDtfid], editingCell := some ("r2", .dgt_revision), cellValue := "",
    notification := none }

/-- A record whose `dgt_actualsubmissiondate` holds an unparsable timestamp. -/
def engRecBadDate : Engineering :=
  { (default : Engineering) with dgt_dbp6bd041engineeringid := "r3", dgt_actualsubmissiondate := some "not a date" }

/-- UI state used as a page-reset witness. -/
def egUI0 : EngUIState :=
  { searchTerm := "", filters := emptyEngFilters, sortField := none,
    sortDirection := .asc, currentPage := 3 }

/-- A conditional filter stage is itself a filter. -/
theorem stage_if_filter {c : Bool} {p : ρ → Bool} {l : List ρ} :
    (if c = true then l.filter p else l) = l.filter (fun r => !c || p r) := by
  cases c <;> simp

/-- A conditional two-way filter stage is itself a filter. -/
theorem stage_if_if_filter {c b : Bool} {p q : ρ → Bool} {l : List ρ} :
    (if c = true then (if b = true then l.filter p else l.filter q) else l) =
      l.filter (fun r => !c || (if b = true then p r else q r)) := by
  cases c <;> cases b <;> simp

theorem runPreds_nil (l : List ρ) : runPreds [] l = l := rfl

theorem runPreds_cons (p : ρ → Bool) (ps : List (ρ → Bool)) (l : List ρ) :
    runPreds (p :: ps) l = runPreds ps (l.filter p) := rfl

/-- Membership in the canonical pipeline: survive the input and every
predicate. -/
theorem runPreds_mem {ps : List (ρ → Bool)} {l : List ρ} {a : ρ} :
    a ∈ runPreds ps l ↔ a ∈ l ∧ ∀ p ∈ ps, p a = true := by
  induction ps generalizing l with
  | nil => simp [runPreds_nil]
  | cons p ps ih =>
    rw [runPreds_cons, ih]
    simp only [List.mem_filter, List.mem_cons]
    constructor
    · rintro ⟨⟨ha, hp⟩, hall⟩
      exact ⟨ha, by rintro q (rfl | hq); exact hp; exact hall q hq⟩
    · rintro ⟨ha, hall⟩
      exact ⟨⟨ha, hall p (Or.inl rfl)⟩, fun q hq => hall q (Or.inr hq)⟩

/-- The pipeline never reorders survivors: its output is a sublist of its
input. -/
theorem runPreds_sublist (ps : List (ρ → Bool)) (l : List ρ) :
    (runPreds ps l).Sublist l := by
  induction ps generalizing l with
  | nil => exact (runPreds_nil l) ▸ List.Sublist.refl l
  | cons p ps ih =>
    rw [runPreds_cons]
    exact (ih (l.filter p)).trans (List.filter_sublist l)

theorem filter_comm_bool (p q : ρ → Bool) (l : List ρ) :
    (l.filter p).filter q = (l.filter q).filter p := by
  simp [List.filter_filter, Bool.and_comm]

theorem runPreds_filter_comm (ps : List (ρ → Bool)) (q : ρ → Bool) (l : List ρ) :
    (runPreds ps l).filter q = runPreds ps (l.filter q) := by
  induction ps generalizing l with
  | nil => simp [runPreds_nil]
  | cons p ps ih =>
    rw [runPreds_cons, runPreds_cons, ih, filter_comm_bool]

/-- Idempotence of the canonical pipeline. -/
theorem runPreds_idem (ps : List (ρ → Bool)) (l : List ρ) :
    runPreds ps (runPreds ps l) = runPreds ps l := by
  induction ps generalizing l with
  | nil => simp [runPreds_nil]
  | cons p ps ih =>
    rw [runPreds_cons, runPreds_cons, runPreds_filter_comm, List.filter_filter]
    simpa using ih (l.filter p)

/-- The Engineering filter pipeline in canonical form. -/
theorem engFilterPipeline_eq_runPreds (searchTerm : String) (fs : EngFilters) (l : List Engineering) :
    engFilterPipeline searchTerm fs l = runPreds (engPipelinePreds searchTerm fs) l := by
  simp only [engFilterPipeline, engSearchStage, engApplyColumnFilters,
    stage_if_filter, stage_if_if_filter, engPipelinePreds]
  rfl

/-- The DynamicActualData filter pipeline in canonical form. -/
theorem dynFilterPipeline_eq_runPreds (searchTerm : String) (lf : LookupFilters)
    (fs : DynFilters) (l : List DynRow) :
    dynFilterPipeline searchTerm lf fs l = runPreds (dynPipelinePreds searchTerm lf fs) l := by
  simp only [dynFilterPipeline, stage_if_filter, dynPipelinePreds]
  rfl

theorem nullsLastLE_trans [LinearOrder α] {a b c : Option α}
    (h1 : nullsLastLE a b) (h2 : nullsLastLE b c) : nullsLastLE a c := by
  cases a <;> cases b <;> cases c <;> simp_all [nullsLastLE]
  exact le_trans h1 h2

theorem cmpJS_asc_le {α : Type u} [LinearOrder α] {a b : Option α}
    (h : cmpJS .asc a b ≤ 0) : nullsLastLE a b := by
  match a, b with
  | none, none => exact (by simp [cmpJS] at h)
  | none, some y => exact (by simp [cmpJS] at h)
  | some x, none => exact trivial
  | some x, some y =>
    show x ≤ y
    simp only [cmpJS, if_pos rfl] at h
    split_ifs at h with h1 h2
    · exact le_of_lt h1
    · omega
    · exact le_of_not_lt h2

theorem cmpJS_asc_gt {α : Type u} [LinearOrder α] {a b : Option α}
    (h : ¬ cmpJS .asc a b ≤ 0) : nullsLastLE b a := by
  match a, b with
  | none, none => exact trivial
  | none, some y => exact trivial
  | some x, none => exact absurd (by simp [cmpJS]) h
  | some x, some y =>
    show y ≤ x
    simp only [cmpJS, if_pos rfl] at h
    split_ifs at h with h1 h2
    · omega
    · exact le_of_lt h2
    · omega

theorem cmpJS_desc_le {α : Type u} [LinearOrder α] {a b : Option α}
    (h : cmpJS .desc a b ≤ 0) : nullsLastLE b a := by
  match a, b with
  | none, none => exact trivial
  | none, some y => exact trivial
  | some x, none => exact (by simp [cmpJS] at h)
  | some x, some y =>
    show y ≤ x
    simp only [cmpJS, reduceCtorEq, if_false] at h
    split_ifs at h with h1 h2
    · omega
    · exact le_of_lt h2
    · exact le_of_not_lt h1

theorem cmpJS_desc_gt {α : Type u} [LinearOrder α] {a b : Option α}
    (h : ¬ cmpJS .desc a b ≤ 0) : nullsLastLE a b := by
  match a, b with
  | none, none => exact absurd (by simp [cmpJS]) h
  | none, some y => exact absurd (by simp [cmpJS]) h
  | some x, none => exact trivial
  | some x, some y =>
    show x ≤ y
    simp only [cmpJS, reduceCtorEq, if_false] at h
    split_ifs at h with h1 h2
    · exact le_of_lt h1
    · omega
    · omega

/-- Inserting with a placement condition `c` preserves a chain for any
relation `R` implied by `c` forwards and by `¬ c` backwards.  This does not
need `c` to be total or transitive, which matters because the grid comparator
is inconsistent on pairs of null keys. -/
theorem chain_orderedInsert {c : ρ → ρ → Prop} [DecidableRel c] {R : ρ → ρ → Prop}
    (hT : ∀ a b, c a b → R a b) (hF : ∀ a b, ¬ c a b → R b a) :
    ∀ (l : List ρ) (x : ρ), List.Chain' R l → List.Chain' R (List.orderedInsert c x l) := by
  intro l
  induction l with
  | nil => intro x _; simp
  | cons y ys ih =>
    intro x hch
    by_cases hc : c x y
    · simp only [List.orderedInsert, if_pos hc]
      exact List.chain'_cons.mpr ⟨hT x y hc, hch⟩
    · simp only [List.orderedInsert, if_neg hc]
      cases ys with
      | nil =>
        simp only [List.orderedInsert]
        exact List.chain'_cons.mpr ⟨hF x y hc, List.chain'_singleton x⟩
      | cons z zs =>
        by_cases hcz : c x z
        · simp only [List.orderedInsert, if_pos hcz]
          exact List.chain'_cons.mpr ⟨hF x y hc,
            List.chain'_cons.mpr ⟨hT x z hcz, hch.tail⟩⟩
        · have h2 := ih x hch.tail
          simp only [List.orderedInsert, if_neg hcz] at h2 ⊢
          exact List.chain'_cons.mpr ⟨(List.chain'_cons.mp hch).1, h2⟩

/-- Sortedness of the stable insertion sort under the same hypotheses. -/
theorem chain_insertionSort {c : ρ → ρ → Prop} [DecidableRel c] {R : ρ → ρ → Prop}
    (hT : ∀ a b, c a b → R a b) (hF : ∀ a b, ¬ c a b → R b a) :
    ∀ l : List ρ, List.Chain' R (List.insertionSort c l)
  | [] => List.chain'_nil
  | b :: l => chain_orderedInsert hT hF _ b (chain_insertionSort hT hF l)

theorem filter_orderedInsert_pos {c : ρ → ρ → Prop} [DecidableRel c] {p : ρ → Bool}
    {x : ρ} (hx : p x = true) (hpass : ∀ y, ¬ c x y → p y = false) :
    ∀ l : List ρ, (List.orderedInsert c x l).filter p = x :: l.filter p := by
  intro l
  induction l with
  | nil => simp [hx]
  | cons y ys ih =>
    by_cases hc : c x y
    · simp [List.orderedInsert, if_pos hc, List.filter_cons, hx]
    · have hy := hpass y hc
      simp [List.orderedInsert, if_neg hc, List.filter_cons, hy, ih]

theorem filter_orderedInsert_neg {c : ρ → ρ → Prop} [DecidableRel c] {p : ρ → Bool}
    {x : ρ} (hx : p x = false) :
    ∀ l : List ρ, (List.orderedInsert c x l).filter p = l.filter p := by
  intro l
  induction l with
  | nil => simp [hx]
  | cons y ys ih =>
    by_cases hc : c x y
    · simp [List.orderedInsert, if_pos hc, List.filter_cons, hx]
    · simp [List.orderedInsert, if_neg hc, List.filter_cons, ih]

/-- Stability of the insertion sort, phrased through filtering: if an element
satisfying `p` is never placed after an element satisfying `p` (hypothesis
`hpass`), the `p`-sublist of the output is the `p`-sublist of the input. -/
theorem filter_insertionSort {c : ρ → ρ → Prop} [DecidableRel c] {p : ρ → Bool}
    (hpass : ∀ x y, p x = true → ¬ c x y → p y = false) :
    ∀ l : List ρ, (List.insertionSort c l).filter p = l.filter p := by
  intro l
  induction l with
  | nil => rfl
  | cons b l ih =>
    show (List.orderedInsert c b (List.insertionSort c l)).filter p = _
    by_cases hb : p b = true
    · rw [filter_orderedInsert_pos hb (hpass b · hb), ih, List.filter_cons, if_pos hb]
    · rw [filter_orderedInsert_neg (Bool.eq_false_iff.mpr hb), ih,
        List.filter_cons, if_neg hb]

/-- The sort is a permutation: both directions sort the same input multiset. -/
theorem sortJS_perm [LinearOrder α] (dir : SortDirection) (k : ρ → Option α) (l : List ρ) :
    (sortJS dir k l).Perm l :=
  List.perm_insertionSort _ l

/-- Ascending output is non-decreasing in the key order with nulls last. -/
theorem sortJS_asc_chain [LinearOrder α] (k : ρ → Option α) (l : List ρ) :
    List.Chain' (fun a b => nullsLastLE (k a) (k b)) (sortJS .asc k l) :=
  chain_insertionSort (fun _ _ h => cmpJS_asc_le h) (fun _ _ h => cmpJS_asc_gt h) l

/-- Descending output is non-increasing in the key order, i.e. nulls first. -/
theorem sortJS_desc_chain [LinearOrder α] (k : ρ → Option α) (l : List ρ) :
    List.Chain' (fun a b => nullsLastLE (k b) (k a)) (sortJS .desc k l) :=
  chain_insertionSort (fun _ _ h => cmpJS_desc_le h) (fun _ _ h => cmpJS_desc_gt h) l

/-- Stability for equal concrete keys, in either direction: the subsequence of
records carrying any fixed concrete key is exactly their input subsequence. -/
theorem sortJS_stable [LinearOrder α] (dir : SortDirection) (k : ρ → Option α) (v : α)
    (l : List ρ) :
    (sortJS dir k l).filter (fun r => decide (k r = some v)) =
      l.filter (fun r => decide (k r = some v)) := by
  apply filter_insertionSort
  intro x y hx hc
  have hkx : k x = some v := of_decide_eq_true hx
  rw [hkx] at hc
  rw [decide_eq_false_iff_not]
  intro hky
  rw [hky] at hc
  cases dir <;> simp [cmpJS] at hc

theorem totalPages_eq_ceilDiv (count : Nat) : totalPages count = count ⌈/⌉ ITEMS_PER_PAGE :=
  (Nat.ceilDiv_eq_add_pred_div count ITEMS_PER_PAGE).symm

theorem paginatedData_length (l : List ρ) (p : Nat) (h1 : 1 ≤ p) :
    (paginatedData l p).length = min ITEMS_PER_PAGE (l.length - (p - 1) * ITEMS_PER_PAGE) := by
  have hp : p * ITEMS_PER_PAGE - (p - 1) * ITEMS_PER_PAGE = ITEMS_PER_PAGE := by
    simp only [ITEMS_PER_PAGE]; omega
  simp [paginatedData, jsSlice, hp]

theorem gridPages_flatten_aux (n : Nat) :
    ∀ l : List ρ, l.length ≤ n → (gridPages l).flatten = l := by
  induction n with
  | zero =>
    intro l hl
    have h0 : l = [] := List.length_eq_zero.mp (Nat.le_zero.mp hl)
    subst h0
    simp [gridPages, totalPages, ITEMS_PER_PAGE]
  | succ n ih =>
    intro l hl
    by_cases hnil : l = []
    · subst hnil
      simp [gridPages, totalPages, ITEMS_PER_PAGE]
    · have hlen : 1 ≤ l.length := by
        rcases l with _ | ⟨a, l1⟩
        · simp_all
        · simp
      have htp : totalPages l.length = totalPages (l.length - ITEMS_PER_PAGE) + 1 := by
        simp only [totalPages, ITEMS_PER_PAGE]
        omega
      have hdroplen : (l.drop ITEMS_PER_PAGE).length = l.length - ITEMS_PER_PAGE :=
        List.length_drop _ _
      have hfirst : paginatedData l 1 = l.take ITEMS_PER_PAGE := by
        simp [paginatedData, jsSlice]
      have hshift : ∀ i : Nat, paginatedData l (i + 1 + 1) = paginatedData (l.drop ITEMS_PER_PAGE) (i + 1) := by
        intro i
        simp only [paginatedData, jsSlice, List.drop_drop]
        have e1 : (i + 1 + 1 - 1) * ITEMS_PER_PAGE = ITEMS_PER_PAGE + (i + 1 - 1) * ITEMS_PER_PAGE := by
          simp only [ITEMS_PER_PAGE]
          omega
        have e2 : (i + 1 + 1) * ITEMS_PER_PAGE - (ITEMS_PER_PAGE + (i + 1 - 1) * ITEMS_PER_PAGE) =
            (i + 1) * ITEMS_PER_PAGE - (i + 1 - 1) * ITEMS_PER_PAGE := by
          simp only [ITEMS_PER_PAGE]
          omega
        rw [e1, e2]
      unfold gridPages
      rw [htp, List.range_succ_eq_map, List.map_cons, List.flatten_cons,
        List.map_map, hfirst]
      have hmap : (List.range (totalPages (l.length - ITEMS_PER_PAGE))).map
            ((fun i => paginatedData l (i + 1)) ∘ Nat.succ) =
          gridPages (l.drop ITEMS_PER_PAGE) := by
        unfold gridPages
        rw [hdroplen]
        apply List.map_congr_left
        intro i _
        show paginatedData l (i + 1 + 1) = paginatedData (l.drop ITEMS_PER_PAGE) (i + 1)
        exact hshift i
      have hle : (l.drop ITEMS_PER_PAGE).length ≤ n := by
        rw [hdroplen]
        simp only [ITEMS_PER_PAGE]
        omega
      rw [hmap, ih (l.drop ITEMS_PER_PAGE) hle, List.take_append_drop]

/-- Concatenating the pages for `currentPage = 1 .. totalPages` in order
reconstructs the full sequence, with no gaps or duplicates. -/
theorem gridPages_flatten (l : List ρ) : (gridPages l).flatten = l :=
  gridPages_flatten_aux l.length l le_rfl

theorem engApplyEdit_agrees (item : Engineering) (field : EngEditableField) (cv : String) :
    engAgreesOffField (engApplyEdit item field cv) item field := by
  cases field <;> simp [engApplyEdit, engAgreesOffField]

theorem tail3_ne (x : List Char) (c1 c2 c3 : Char) (hne : [c1, c2, c3] ≠ ['N', 'a', 'N'])
    (h : x ++ [c1, c2, c3] = ['N', 'a', 'N', '-', 'N', 'a', 'N']) : False := by
  have h2 : x ++ [c1, c2, c3] = ['N', 'a', 'N', '-'] ++ ['N', 'a', 'N'] := h
  exact hne (List.append_inj' h2 rfl).2

/-- A genuine bucket key (year plus zero-padded month in `1..12`) is never the
`"NaN-NaN"` string an invalid timestamp derives to. -/
theorem mkBucketKey_ne_nanKey (y m : Nat) (h1 : 1 ≤ m) (h2 : m ≤ 12) :
    mkBucketKey y m ≠ "NaN-NaN" := by
  interval_cases m <;>
  · intro h
    have hd := congrArg String.data h
    rw [mkBucketKey, String.data_append] at hd
    exact tail3_ne _ _ _ _ (by decide) hd

theorem parseYearMonth_month_range {s : String} {y m : Nat}
    (h : parseYearMonth s = some (y, m)) : 1 ≤ m ∧ m ≤ 12 := by
  unfold parseYearMonth at h
  split at h
  · split at h
    · split at h
      · injection h with h1
        injection h1 with hy hm
        subst hm
        assumption
      · exact absurd h (by simp)
    · exact absurd h (by simp)
  · exact absurd h (by simp)

/-- Every dropdown option of `DateColumnFilter` is a genuine bucket key of a
parsable stored value. -/
theorem dateFilterOptionKeys_shape {data : List (Option String)} {fv : String}
    (h : fv ∈ dateFilterOptionKeys data) :
    ∃ s y m, some s ∈ data ∧ parseYearMonth s = some (y, m) ∧
      1 ≤ m ∧ m ≤ 12 ∧ fv = mkBucketKey y m := by
  rw [dateFilterOptionKeys, List.mem_dedup] at h
  rw [List.mem_filterMap] at h
  obtain ⟨s, hs, hmap⟩ := h
  rw [List.mem_filterMap] at hs
  obtain ⟨os, hos, hid⟩ := hs
  split at hmap
  · exact absurd hmap (by simp)
  · rw [Option.map_eq_some'] at hmap
    obtain ⟨⟨y, m⟩, hym, hfv⟩ := hmap
    obtain ⟨hm1, hm2⟩ := parseYearMonth_month_range hym
    have hos2 : some s ∈ data := by
      have heq : os = some s := hid
      exact heq ▸ hos
    exact ⟨s, y, m, hos2, hym, hm1, hm2, hfv.symm⟩

/-- C2: with the page size fixed at 15, `totalPages` is the ceiling of
count/pageSize; for every `currentPage` in `[1, totalPages]` the returned page
is the slice `[(currentPage-1)*15, currentPage*15)` clipped to the available
length, so its size is `min(pageSize, remaining)`; concatenating the pages for
`currentPage = 1 .. totalPages` in order reconstructs the full sequence with
no gaps or duplicates; in particular 16 records yield `totalPages = 2` with
pages of 15 and 1. -/
theorem C2_pagination (l : List ρ) (p : Nat) (hp1 : 1 ≤ p) (_hp2 : p ≤ totalPages l.length) :
    ITEMS_PER_PAGE = 15 ∧
    totalPages l.length = l.length ⌈/⌉ ITEMS_PER_PAGE ∧
    paginatedData l p = jsSlice l ((p - 1) * ITEMS_PER_PAGE) (p * ITEMS_PER_PAGE) ∧
    (paginatedData l p).length = min ITEMS_PER_PAGE (l.length - (p - 1) * ITEMS_PER_PAGE) ∧
    (gridPages l).flatten = l ∧
    (l.length = 16 →
      totalPages l.length = 2 ∧
      (paginatedData l 1).length = 15 ∧ (paginatedData l 2).length = 1) := by
  refine ⟨rfl, totalPages_eq_ceilDiv l.length, rfl, paginatedData_length l p hp1,
    gridPages_flatten l, ?_⟩
  intro h16
  refine ⟨by rw [h16]; rfl, ?_, ?_⟩
  · rw [paginatedData_length l 1 le_rfl, h16]
    rfl
  · rw [paginatedData_length l 2 (by omega), h16]
    rfl

theorem C2_pagination_witness :
    totalPages (List.range 16).length = 2 ∧
      (paginatedData (List.range 16) 1).length = 15 ∧
      (paginatedData (List.range 16) 2).length = 1 :=
  (C2_pagination (List.range 16) 1 (by decide) (by decide)).2.2.2.2.2 (by decide)

/-- C4: the Predicate Pipeline is idempotent — applying it to its own output
(same search term, same column filters and, for the fourth grid, same lookup
filters) returns that output unchanged — and it preserves the relative order
of surviving records (the output is a sublist of the input).  Purity holds by
construction: the pipeline is a pure function of its arguments. -/
theorem C4_pipeline_idempotent :
    (∀ (term : String) (fs : EngFilters) (l : List Engineering),
      engFilterPipeline term fs (engFilterPipeline term fs l) = engFilterPipeline term fs l ∧
      (engFilterPipeline term fs l).Sublist l) ∧
    (∀ (term : String) (lf : LookupFilters) (fs : DynFilters) (l : List DynRow),
      dynFilterPipeline term lf fs (dynFilterPipeline term lf fs l) =
        dynFilterPipeline term lf fs l ∧
      (dynFilterPipeline term lf fs l).Sublist l) := by
  constructor
  · intro term fs l
    constructor
    · simp only [engFilterPipeline_eq_runPreds]
      exact runPreds_idem _ _
    · rw [engFilterPipeline_eq_runPreds]
      exact runPreds_sublist _ _
  · intro term lf fs l
    constructor
    · simp only [dynFilterPipeline_eq_runPreds]
      exact runPreds_idem _ _
    · rw [dynFilterPipeline_eq_runPreds]
      exact runPreds_sublist _ _

/-- C5: for a non-empty search term, a record survives the Engineering search
stage iff at least one designated searchable column matches — `dgt_dtfid`,
`dgt_transmittalref`, `dgt_transmittalsubject` as case-insensitive substring
match, `dgt_discipline` as decimal-string substring match of the lowercased
term; hence every record of the output has such a match. -/
theorem C5_search_stage (term : String) (h : term ≠ "") (l : List Engineering)
    (r : Engineering) :
    r ∈ engSearchStage term l ↔
      r ∈ l ∧
      (optLowerIncludes r.dgt_dtfid (jsToLower term) = true ∨
       optLowerIncludes r.dgt_transmittalref (jsToLower term) = true ∨
       optLowerIncludes r.dgt_transmittalsubject (jsToLower term) = true ∨
       optNumIncludes r.dgt_discipline (jsToLower term) = true) := by
  have hbne : (term != "") = true := bne_iff_ne.mpr h
  simp only [engSearchStage, hbne, if_true, List.mem_filter, engSearchPred, Bool.or_eq_true]
  tauto

theorem C5_search_witness : engRec1 ∈ engSearchStage "ab" [engRec1] :=
  (C5_search_stage "ab" (by decide) [engRec1] engRec1).mpr
    ⟨List.mem_singleton.mpr rfl, Or.inl (by decide)⟩

/-- C1 as stated is false: it asserts the `"BLANK"` sentinel semantics for
every non-empty filter entry, i.e. every filterable column, but the
`dgt_dtfid` column filter of `EngineeringForm` is a plain equality test, so
with the filter value `"BLANK"` a record whose `dgt_dtfid` is the literal
string `"BLANK"` passes and a record whose `dgt_dtfid` is null is dropped. -/
theorem C1_counterexample :
    engFilterPipeline "" fsBlankDtfid [engRecBlankStr, engRecNoDtfid] = [engRecBlankStr] ∧
    engRecBlankStr.dgt_dtfid = some "BLANK" ∧
    engRecNoDtfid.dgt_dtfid = none := by
  refine ⟨by decide, rfl, rfl⟩

/-- C1 amended: the `"BLANK"` sentinel semantics hold for the columns whose
filters implement the sentinel — in `EngineeringForm` the `dgt_discipline` and
`dgt_transmittaltype` columns (kept iff null) and the two date columns (kept
iff null or empty) — and with only such a filter active the output is exactly
the blank-valued records in input order.  The remaining filterable columns
(`dgt_dtfid`, `dgt_transmittalref`, `dgt_revision`, `dgt_status`) treat
`"BLANK"` as an ordinary equality literal. -/
theorem C1_amended (term : String) (fs : EngFilters) (l : List Engineering) (r : Engineering) :
    (fs.dgt_discipline = "BLANK" → r ∈ engFilterPipeline term fs l →
      r.dgt_discipline = none) ∧
    (fs.dgt_transmittaltype = "BLANK" → r ∈ engFilterPipeline term fs l →
      r.dgt_transmittaltype = none) ∧
    (fs.dgt_actualsubmissiondate = "BLANK" → r ∈ engFilterPipeline term fs l →
      jsFalsyStr r.dgt_actualsubmissiondate = true) ∧
    (fs.dgt_actualreturndate = "BLANK" → r ∈ engFilterPipeline term fs l →
      jsFalsyStr r.dgt_actualreturndate = true) ∧
    (engFilterPipeline "" fsBlankDiscipline l =
      l.filter (fun item => item.dgt_discipline == none)) ∧
    (engFilterPipeline "" fsBlankDtfid l =
      l.filter (fun item => item.dgt_dtfid == some "BLANK")) := by
  refine ⟨?_, ?_, ?_, ?_, ?_, ?_⟩
  · intro hB hmem
    rw [engFilterPipeline_eq_runPreds, runPreds_mem, engPipelinePreds] at hmem
    obtain ⟨-, hall⟩ := hmem
    simp only [List.mem_cons, List.not_mem_nil, or_false, forall_eq_or_imp, forall_eq] at hall
    obtain ⟨-, -, -, h4, -⟩ := hall
    rw [hB] at h4
    rw [show (("BLANK" : String) != "") = true from rfl,
      show (("BLANK" : String) == "BLANK") = true from rfl] at h4
    simpa using h4
  · intro hB hmem
    rw [engFilterPipeline_eq_runPreds, runPreds_mem, engPipelinePreds] at hmem
    obtain ⟨-, hall⟩ := hmem
    simp only [List.mem_cons, List.not_mem_nil, or_false, forall_eq_or_imp, forall_eq] at hall
    obtain ⟨-, -, -, -, h5, -⟩ := hall
    rw [hB] at h5
    rw [show (("BLANK" : String) != "") = true from rfl,
      show (("BLANK" : String) == "BLANK") = true from rfl] at h5
    simpa using h5
  · intro hB hmem
    rw [engFilterPipeline_eq_runPreds, runPreds_mem, engPipelinePreds] at hmem
    obtain ⟨-, hall⟩ := hmem
    simp only [List.mem_cons, List.not_mem_nil, or_false, forall_eq_or_imp, forall_eq] at hall
    obtain ⟨-, -, -, -, -, h6, -⟩ := hall
    rw [hB] at h6
    rw [show (("BLANK" : String) != "") = true from rfl,
      show (("BLANK" : String) == "BLANK") = true from rfl] at h6
    simpa using h6
  · intro hB hmem
    rw [engFilterPipeline_eq_runPreds, runPreds_mem, engPipelinePreds] at hmem
    obtain ⟨-, hall⟩ := hmem
    simp only [List.mem_cons, List.not_mem_nil, or_false, forall_eq_or_imp, forall_eq] at hall
    obtain ⟨-, -, -, -, -, -, h7, -⟩ := hall
    rw [hB] at h7
    rw [show (("BLANK" : String) != "") = true from rfl,
      show (("BLANK" : String) == "BLANK") = true from rfl] at h7
    simpa using h7
  · rw [engFilterPipeline_eq_runPreds, engPipelinePreds, fsBlankDiscipline]
    simp [runPreds_cons, runPreds_nil, emptyEngFilters,
      show (("" : String) != "") = false from rfl,
      show (("BLANK" : String) != "") = true from rfl,
      show (("BLANK" : String) == "BLANK") = true from rfl]
  · rw [engFilterPipeline_eq_runPreds, engPipelinePreds, fsBlankDtfid]
    simp [runPreds_cons, runPreds_nil, emptyEngFilters,
      show (("" : String) != "") = false from rfl,
      show (("BLANK" : String) != "") = true from rfl]

theorem C1_amended_witness :
    engRecNoDtfid.dgt_discipline = none ∧
    engFilterPipeline "" fsBlankDiscipline [engRecNoDtfid] = [engRecNoDtfid] :=
  ⟨(C1_amended "" fsBlankDiscipline [engRecNoDtfid] engRecNoDtfid).1 rfl (by decide),
   by decide⟩

/-- C3 as stated is false: it asserts that sorting the same input descending
yields the exact reverse of the ascending output, but the stable sort keeps
two records with equal keys in input order under BOTH directions (the
comparator returns 0 either way), so the descending output is not the reverse
of the ascending one as soon as two records share a key. -/
theorem C3_counterexample :
    sortJS .desc KRow.key [kr1, kr2] ≠ (sortJS .asc KRow.key [kr1, kr2]).reverse ∧
    sortJS .asc KRow.key [kr1, kr2] = [kr1, kr2] ∧
    sortJS .desc KRow.key [kr1, kr2] = [kr1, kr2] := by
  refine ⟨by decide, by decide, by decide⟩

/-- C3 amended: over the same input multiset, the ascending sort output is
non-decreasing in the key order with all null/undefined keys placed last, the
descending output is non-increasing in that order (nulls first), and the sort
is stable for equal concrete keys in both directions (the subsequence carrying
any fixed key is its input subsequence).  Descending is the exact reverse of
ascending only in the absence of equal keys; with equal keys stability forces
both directions to keep the input order, as the counterexample shows. -/
theorem C3_amended {α : Type u} {ρ : Type v} [LinearOrder α] (k : ρ → Option α)
    (l : List ρ) (v : α) :
    (sortJS .asc k l).Perm l ∧
    (sortJS .desc k l).Perm l ∧
    List.Chain' (fun a b => nullsLastLE (k a) (k b)) (sortJS .asc k l) ∧
    List.Chain' (fun a b => nullsLastLE (k b) (k a)) (sortJS .desc k l) ∧
    (sortJS .asc k l).filter (fun r => decide (k r = some v)) =
      l.filter (fun r => decide (k r = some v)) ∧
    (sortJS .desc k l).filter (fun r => decide (k r = some v)) =
      l.filter (fun r => decide (k r = some v)) :=
  ⟨sortJS_perm .asc k l, sortJS_perm .desc k l, sortJS_asc_chain k l,
   sortJS_desc_chain k l, sortJS_stable .asc k v l, sortJS_stable .desc k v l⟩

/-- C10: on a pair of records whose sort keys are both null, the comparator
returns the same nonzero result in both argument orders — `1` under ascending
and `-1` under descending — so null-keyed records are never "equal keys" (the
comparator is not a consistent total preorder there), and the equal-key
stability guarantee does not constrain their relative order: the ascending
sort actually swaps two adjacent null-keyed records. -/
theorem C10_null_comparator {α : Type u} {ρ : Type v} [LinearOrder α] (k : ρ → Option α)
    (a b : ρ) (ha : k a = none) (hb : k b = none) :
    cmpJS .asc (k a) (k b) = 1 ∧ cmpJS .asc (k b) (k a) = 1 ∧
    cmpJS .desc (k a) (k b) = -1 ∧ cmpJS .desc (k b) (k a) = -1 ∧
    cmpJS .asc (k a) (k b) ≠ 0 ∧ cmpJS .desc (k a) (k b) ≠ 0 ∧
    sortJS .asc k [a, b] = [b, a] := by
  rw [ha, hb]
  refine ⟨rfl, rfl, rfl, rfl, by simp [cmpJS], by simp [cmpJS], ?_⟩
  simp [sortJS, List.insertionSort, List.orderedInsert, ha, hb, cmpJS]

theorem C10_null_comparator_witness :
    cmpJS .asc (KRow.key krN1) (KRow.key krN2) = 1 ∧
    cmpJS .asc (KRow.key krN2) (KRow.key krN1) = 1 ∧
    cmpJS .desc (KRow.key krN1) (KRow.key krN2) = -1 ∧
    cmpJS .desc (KRow.key krN2) (KRow.key krN1) = -1 ∧
    cmpJS .asc (KRow.key krN1) (KRow.key krN2) ≠ 0 ∧
    cmpJS .desc (KRow.key krN1) (KRow.key krN2) ≠ 0 ∧
    sortJS .asc KRow.key [krN1, krN2] = [krN2, krN1] :=
  C10_null_comparator KRow.key krN1 krN2 rfl rfl

/-- C6: committing an inline edit — on store success exactly the edited field
of the records with the matching identifier is patched in the Snapshot Cache
(the cache becomes the pointwise map that rewrites matching records and keeps
every non-matching record, and the patch agrees with the original on the
identifier and on every non-edited column) and a success notification is
surfaced; on store failure the Snapshot Cache is left untouched and an error
notification carrying the backend detail is surfaced; in both cases the
editing cursor returns to Idle and the pending cell value is cleared. -/
theorem C6_inline_edit (st : EngGrid) (rid : String) (f : EngEditableField) :
    (∀ e : String,
      (saveInlineEdit st rid f (some e)).data = st.data ∧
      (saveInlineEdit st rid f (some e)).notification =
        some ⟨.error, "Failed to update: " ++ e⟩ ∧
      (saveInlineEdit st rid f (some e)).editingCell = none ∧
      (saveInlineEdit st rid f (some e)).cellValue = "") ∧
    ((saveInlineEdit st rid f none).data =
      st.data.map (fun item =>
        if item.dgt_dbp6bd041engineeringid == rid then engApplyEdit item f st.cellValue
        else item)) ∧
    (∀ item : Engineering, item.dgt_dbp6bd041engineeringid ≠ rid →
      (if item.dgt_dbp6bd041engineeringid == rid then engApplyEdit item f st.cellValue
       else item) = item) ∧
    (∀ item : Engineering, engAgreesOffField (engApplyEdit item f st.cellValue) item f) ∧
    (saveInlineEdit st rid f none).notification = some ⟨.success, "Updated successfully"⟩ ∧
    (saveInlineEdit st rid f none).editingCell = none ∧
    (saveInlineEdit st rid f none).cellValue = "" := by
  refine ⟨fun e => ⟨rfl, rfl, rfl, rfl⟩, rfl, ?_, ?_, rfl, rfl, rfl⟩
  · intro item hne
    simp [hne]
  · intro item
    exact engApplyEdit_agrees item f st.cellValue

theorem C6_inline_edit_witness :
    (saveInlineEdit egGrid0 "r2" .dgt_revision (some "boom")).data = egGrid0.data ∧
    (if engRecBlankStr.dgt_dbp6bd041engineeringid == "r2" then
      engApplyEdit engRecBlankStr .dgt_revision egGrid0.cellValue
     else engRecBlankStr) = engRecBlankStr ∧
    (saveInlineEdit egGrid0 "r2" .dgt_revision none).notification =
      some ⟨.success, "Updated successfully"⟩ :=
  ⟨((C6_inline_edit egGrid0 "r2" .dgt_revision).1 "boom").1,
   (C6_inline_edit egGrid0 "r2" .dgt_revision).2.2.1 engRecBlankStr (by decide),
   (C6_inline_edit egGrid0 "r2" .dgt_revision).2.2.2.2.1⟩

/-- C7: committing an inline edit of an integer-coerced cell with an empty
pending string stores and caches `null` — not `0`, not the string `"0"`, not
`NaN` — both for the Engineering revision column and the ActualResources
resource-count column, while a non-empty pending string is coerced by
`parseInt` before the update is issued. -/
theorem C7_integer_coercion (item : Engineering) :
    engUpdateValue .dgt_revision "" = .nullV ∧
    UpdateVal.nullV ≠ .numV (.int 0) ∧
    UpdateVal.nullV ≠ .strV "0" ∧
    UpdateVal.nullV ≠ .numV .nan ∧
    (engApplyEdit item .dgt_revision "").dgt_revision = none ∧
    arSaveValue "" = none ∧
    (∀ s : String, s ≠ "" → engUpdateValue .dgt_revision s = .numV (jsParseInt s)) ∧
    (∀ s : String, s ≠ "" → arSaveValue s = some (jsParseInt s)) := by
  refine ⟨rfl, by decide, by decide, by decide, rfl, rfl, ?_, ?_⟩
  · intro s hs
    simp [engUpdateValue, hs]
  · intro s hs
    simp [arSaveValue, hs]

theorem C7_integer_coercion_witness :
    (engApplyEdit engRecNoDtfid .dgt_revision "").dgt_revision = none ∧
    engUpdateValue .dgt_revision "7" = .numV (jsParseInt "7") :=
  ⟨(C7_integer_coercion engRecNoDtfid).2.2.2.2.1,
   (C7_integer_coercion engRecNoDtfid).2.2.2.2.2.2.1 "7" (by decide)⟩

/-- C8: for a non-blank month-bucket filter on the
`dgt_actualsubmissiondate` timestamp column, every surviving record stores a
non-empty timestamp whose derived `YEAR-zero_padded_MONTH` key equals the
requested key; filtering by `"BLANK"` keeps exactly the records whose
timestamp is null or empty; an unparsable timestamp contributes no option to
the `DateColumnFilter` dropdown and matches no genuine bucket option (the
derivation is a total function, so no input can crash it). -/
theorem C8_date_bucket (fs : EngFilters) (l : List Engineering) (r : Engineering)
    (data : List (Option String)) (s : String) :
    (fs.dgt_actualsubmissiondate ≠ "" → fs.dgt_actualsubmissiondate ≠ "BLANK" →
      r ∈ engFilterPipeline "" fs l →
      ∃ d, r.dgt_actualsubmissiondate = some d ∧ d ≠ "" ∧
        jsMonthYearKey d = fs.dgt_actualsubmissiondate) ∧
    (engFilterPipeline "" fsBlankSubmission l =
      l.filter (fun item => jsFalsyStr item.dgt_actualsubmissiondate)) ∧
    (parseYearMonth s = none → s ≠ "" →
      dateFilterOptionKeys (data ++ [some s]) = dateFilterOptionKeys data) ∧
    (∀ fv ∈ dateFilterOptionKeys data, parseYearMonth s = none →
      dateBucketPred fv (some s) = false) := by
  refine ⟨?_, ?_, ?_, ?_⟩
  · intro hne hnb hmem
    rw [engFilterPipeline_eq_runPreds, runPreds_mem, engPipelinePreds] at hmem
    obtain ⟨-, hall⟩ := hmem
    simp only [List.mem_cons, List.not_mem_nil, or_false, forall_eq_or_imp, forall_eq] at hall
    obtain ⟨-, -, -, -, -, h6, -⟩ := hall
    have hb1 : (fs.dgt_actualsubmissiondate != "") = true := bne_iff_ne.mpr hne
    have hb2 : (fs.dgt_actualsubmissiondate == "BLANK") = false := beq_eq_false_iff_ne.mpr hnb
    rw [hb1, hb2] at h6
    simp only [Bool.not_true, Bool.false_or, if_false, Bool.false_eq_true] at h6
    cases hcase : r.dgt_actualsubmissiondate with
    | none =>
      rw [hcase] at h6
      exact absurd h6 (by simp [dateBucketPred])
    | some d =>
      rw [hcase] at h6
      simp only [dateBucketPred] at h6
      by_cases hd : (d == "") = true
      · rw [if_pos hd] at h6
        exact absurd h6 (by simp)
      · rw [if_neg hd] at h6
        exact ⟨d, rfl, by simpa using hd, by simpa using h6⟩
  · rw [engFilterPipeline_eq_runPreds, engPipelinePreds, fsBlankSubmission]
    simp [runPreds_cons, runPreds_nil, emptyEngFilters,
      show (("" : String) != "") = false from rfl,
      show (("BLANK" : String) != "") = true from rfl,
      show (("BLANK" : String) == "BLANK") = true from rfl]
  · intro hpn hsne
    have hs : (s == "") = false := beq_eq_false_iff_ne.mpr hsne
    simp [dateFilterOptionKeys, List.filterMap_append, hs, hpn]
  · intro fv hfv hpn
    obtain ⟨t, y, m, -, -, hm1, hm2, rfl⟩ := dateFilterOptionKeys_shape hfv
    simp only [dateBucketPred]
    by_cases hs : (s == "") = true
    · rw [if_pos hs]
    · rw [if_neg hs]
      have hkey : jsMonthYearKey s = "NaN-NaN" := by
        simp [jsMonthYearKey, hpn]
      rw [hkey]
      exact beq_eq_false_iff_ne.mpr (Ne.symm (mkBucketKey_ne_nanKey y m hm1 hm2))

theorem C8_date_bucket_witness :
    engFilterPipeline "" fsBlankSubmission [engRecNoDtfid, engRecBadDate] = [engRecNoDtfid] ∧
    dateFilterOptionKeys [some "2024-03-15T10:00:00", some "not a date"] =
      dateFilterOptionKeys [some "2024-03-15T10:00:00"] ∧
    dateBucketPred "2024-03" (some "not a date") = false := by
  refine ⟨?_, ?_, ?_⟩
  · exact ((C8_date_bucket emptyEngFilters [engRecNoDtfid, engRecBadDate] engRecNoDtfid []
      "x").2.1).trans (by decide)
  · exact (C8_date_bucket emptyEngFilters [] engRecNoDtfid
      [some "2024-03-15T10:00:00"] "not a date").2.2.1 (by decide) (by decide)
  · exact (C8_date_bucket emptyEngFilters [] engRecNoDtfid
      [some "2024-03-15T10:00:00"] "not a date").2.2.2 "2024-03" (by decide) (by decide)

/-- C9: in the grid UI state machine, a filter-entry transition
(`updateFilter`) resets the current page to 1 (and only rewrites the chosen
entry), a search-term transition to a different term resets the current page
to 1, and a sort transition (`handleSort`, selecting or toggling a column)
leaves the current page unchanged. -/
theorem C9_page_reset (st : EngUIState) (f : EngFilterField) (v : String) (g : EngSortField) :
    (updateFilter st f v).currentPage = 1 ∧
    (updateFilter st f v).filters = setEngFilter st.filters f v ∧
    (updateFilter st f v).searchTerm = st.searchTerm ∧
    (v ≠ st.searchTerm →
      (setSearchTermUI st v).currentPage = 1 ∧ (setSearchTermUI st v).searchTerm = v) ∧
    (handleSort st g).currentPage = st.currentPage := by
  refine ⟨rfl, rfl, rfl, ?_, ?_⟩
  · intro hne
    have hb : (v == st.searchTerm) = false := beq_eq_false_iff_ne.mpr hne
    rw [setSearchTermUI, hb]
    exact ⟨rfl, rfl⟩
  · rw [handleSort]
    split <;> rfl

theorem C9_page_reset_witness :
    (updateFilter egUI0 .dgt_status "APPROVED").currentPage = 1 ∧
    (setSearchTermUI egUI0 "pump").currentPage = 1 ∧
    (handleSort egUI0 .dgt_dtfid).currentPage = egUI0.currentPage :=
  ⟨(C9_page_reset egUI0 .dgt_status "APPROVED" .dgt_dtfid).1,
   ((C9_page_reset egUI0 .dgt_status "pump" .dgt_dtfid).2.2.2.1 (by decide)).1,
   (C9_page_reset egUI0 .dgt_status "APPROVED" .dgt_dtfid).2.2.2.2⟩
